import Mathlib

/-!
Verification of the ICMPv6 engine of wisun-br-linux against its
natural-language specification.

The definitions below are a shallow embedding of
stack/source/common_protocols/icmpv6.c and
stack/source/nwk_interface/protocol.c.  Byte strings are `List Nat`
(one Nat per octet), machine counters are `Nat` with explicit `% 2^16`
where the C type is uint16_t and overflow is reachable, and the
external collaborators of the engine (address lists, routing table,
neighbour-cache mutators, the Wi-SUN layer) are oracle functions
gathered in an `Env` record, so every theorem quantifies over their
behaviour.  A returned `none` models the C code freeing the buffer and
emitting nothing.
-/

/-! ## Protocol constants

Numeric constants taken from the RFCs (RFC 2460, RFC 4443, RFC 4861,
RFC 6775/8505); the repository keeps them in common/specs headers.  -/

def IPV6_HDRLEN : Nat := 40
def IPV6_NH_HOP_BY_HOP : Nat := 0
def IPV6_NH_ROUTING : Nat := 43
def IPV6_NH_AUTH : Nat := 51
def IPV6_NH_ICMPV6 : Nat := 58
def IPV6_NH_DEST_OPT : Nat := 60
def IPV6_NH_MOBILITY : Nat := 135
def IPV6_NH_HIP : Nat := 139
def IPV6_NH_SHIM6 : Nat := 140

def ICMPV6_TYPE_ERROR_PACKET_TOO_BIG : Nat := 2
def ICMPV6_TYPE_ERROR_PARAMETER_PROBLEM : Nat := 4
def ICMPV6_TYPE_INFO_NS : Nat := 135
def ICMPV6_TYPE_INFO_NA : Nat := 136
def ICMPV6_TYPE_INFO_REDIRECT : Nat := 137
def ICMPV6_CODE_PARAM_PRB_UNREC_IPV6_OPT : Nat := 2

def ICMPV6_OPT_SRC_LL_ADDR : Nat := 1
def ICMPV6_OPT_TGT_LL_ADDR : Nat := 2
def ICMPV6_OPT_ADDR_REGISTRATION : Nat := 33

/-- Neighbor Advertisement flag bits (first octet after the ICMP header). -/
def NA_R : Nat := 0x80
def NA_S : Nat := 0x40
def NA_O : Nat := 0x20

def ARO_SUCCESS : Nat := 0
/-- RFC 8505 EARO status for a topologically incorrect registration. -/
def ARO_TOPOLOGICALLY_INCORRECT : Nat := 8

/-- Tag for the REACHABLE state of a neighbour cache entry
(ipv6_routing_table.h, not under review; the numeral is only a tag). -/
def IP_NEIGHBOUR_REACHABLE : Nat := 2

/-- ADDR_NONE of enum addrtype (netaddr_types.h). -/
def ADDR_NONE : Nat := 0
/-- ADDR_IPV6 of enum addrtype (netaddr_types.h). -/
def ADDR_IPV6 : Nat := 4

/-- First 13 octets of a solicited-node multicast address
(ADDR_MULTICAST_SOLICITED in netaddr_types.h). -/
def ADDR_MULTICAST_SOLICITED : List Nat :=
  [0xff, 0x02, 0, 0, 0, 0, 0, 0, 0, 0, 0, 0x01, 0xff]

/-- ff02::1 (ADDR_LINK_LOCAL_ALL_NODES in netaddr_types.h). -/
def ADDR_LINK_LOCAL_ALL_NODES : List Nat :=
  [0xff, 0x02, 0, 0, 0, 0, 0, 0, 0, 0, 0, 0, 0, 0, 0, 0x01]

/-- fe80::/64 (ADDR_LINK_LOCAL_PFX, 8 octets). -/
def ADDR_LINK_LOCAL_PFX8 : List Nat := [0xfe, 0x80, 0, 0, 0, 0, 0, 0]

/-! ## Address predicates

Modelled from the spec: the address classification helpers live in
core/ns_address_internal.c which is not under review; the spec defines
the subtypes by prefix: multicast ff00::/8, link-local fe80::/10,
unspecified all-zero (spec section 3).  An address is 16 octets. -/

def addr_is_ipv6_multicast (a : List Nat) : Bool :=
  a.headD 0 == 0xff

def addr_is_ipv6_unspecified (a : List Nat) : Bool :=
  a.all (· == 0)

def addr_is_ipv6_link_local (a : List Nat) : Bool :=
  a.headD 0 == 0xfe && ((a.drop 1).headD 0 &&& 0xc0) == 0x80

/-! ## Data model: sockaddr, buffer metadata, neighbour cache -/

structure SockAddr where
  addr_type : Nat
  addr : List Nat
deriving Repr, DecidableEq

structure BufOptions where
  type : Nat
  code : Nat
  hop_limit : Nat
  ll_security_bypass_rx : Bool
  ll_broadcast_rx : Bool
  ll_multicast_rx : Bool
deriving Repr, DecidableEq

/-- Packet buffer (buffer_t): payload octets after the ICMP header has
been stripped, plus the metadata the ICMPv6 engine reads. -/
structure Buffer where
  data : List Nat
  src_sa : SockAddr
  dst_sa : SockAddr
  options : BufOptions
deriving Repr, DecidableEq

/-- Neighbour cache entry (ipv6_neighbour_t): the fields the NA path
reads or writes.  The key is the 16-octet IPv6 address ip. -/
structure NeighEntry where
  ip : List Nat
  state : Nat
  ll_type : Nat
  ll_addr : List Nat
deriving Repr, DecidableEq

/-- Calls into the Wi-SUN layer recorded as events (ws_common_*). -/
inductive WsEvent where
  | blacklist (addr : List Nat) (status : Nat)
  | aroFailure (addr : List Nat)
  | neighborUpdate (addr : List Nat)
  | negAroMark (eui64 : List Nat)
deriving Repr, DecidableEq

/-- The mutable state the ICMPv6 handlers can touch: the IPv6 neighbour
cache, the abstract state of the 6LoWPAN-ND registration handler
(nd_router_object.c, an external collaborator), and the log of calls
into the Wi-SUN layer. -/
structure StackState where
  neighCache : List NeighEntry
  regState : Nat
  wsEvents : List WsEvent
deriving Repr, DecidableEq

/-- struct ipv6_nd_opt_earo. -/
structure EaroOut where
  status : Nat
  opq : Nat
  i : Bool
  r : Bool
  t : Bool
  tid : Nat
  lifetime : Nat
  eui64 : List Nat
deriving Repr, DecidableEq

/-- The per-interface context and the engine's external collaborators
(struct net_if fields and the functions of other compilation units),
modelled as oracles so theorems hold for every implementation of them:
addr_compare_ok a is addr_interface_address_compare(cur, a) == 0,
addr_get_entry a is addr_get_entry(cur, a) != NULL, route_ok is the
success of ipv6_buffer_route, update_from_na returns the new
(state, ll_type, ll_addr) triple of the entry it is given (the real
ipv6_neighbour_update_from_na mutates only those fields of the entry in
place), and nd_ns_earo_handler returns the new registration state, the
continue flag, and the optional EARO to put in the NA. -/
structure Env where
  addr_compare_ok : List Nat → Bool
  addr_is_assigned : List Nat → Bool
  addr_select_source : List Nat → Option (List Nat)
  addr_get_ll : Option (List Nat)
  addr_get_entry : List Nat → Bool
  if_llao_parse : List Nat → Option SockAddr
  route_ok : Buffer → Bool
  headroom_ok : Bool
  alloc_ok : Bool
  cur_hop_limit : Nat
  max_unfrag_payload : Nat
  recv_addr_reg : Bool
  omit_na_aro_success : Bool
  omit_na : Bool
  mac : List Nat
  update_from_na : NeighEntry → Nat → SockAddr → Nat × Nat × List Nat
  update_unsolicited : List NeighEntry → List Nat → SockAddr → List NeighEntry
  nd_ns_earo_handler : Nat → List Nat → Option (List Nat) → List Nat → List Nat →
    Nat × Bool × Option EaroOut
  negative_aro_mark : List Nat → Bool

/-! ## is_icmpv6_msg (icmpv6.c lines 50-113)

Walks the extension-header chain of the offending packet to decide
whether it is recognisable ICMPv6; returns the ICMP (type, code) when
it is.  The C loop advances by hdrlen which is at least 8 octets, so
recursion on the remaining length terminates. -/

def icmpv6_skip_exthdrs_fuel : Nat → Nat → List Nat → Option (Nat × Nat)
  | 0, _, _ => none
  | _ + 1, _, [] => none
  | fuel + 1, nh, b :: rest =>
    if nh = IPV6_NH_ICMPV6 then
      if rest.length + 1 < 4 then none else some (b, rest.headD 0)
    else if nh = IPV6_NH_HOP_BY_HOP ∨ nh = IPV6_NH_DEST_OPT ∨ nh = IPV6_NH_ROUTING ∨
            nh = IPV6_NH_MOBILITY ∨ nh = IPV6_NH_HIP ∨ nh = IPV6_NH_SHIM6 then
      if rest.length + 1 < 8 then none
      else
        let hdrlen := (rest.headD 0 + 1) * 8
        if hdrlen ≤ rest.length + 1 ∧ hdrlen % 8 = 0 then
          icmpv6_skip_exthdrs_fuel fuel b (rest.drop (hdrlen - 1))
        else none
    else if nh = IPV6_NH_AUTH then
      if rest.length + 1 < 8 then none
      else
        let hdrlen := (rest.headD 0 + 2) * 4
        if hdrlen ≤ rest.length + 1 ∧ hdrlen % 8 = 0 then
          icmpv6_skip_exthdrs_fuel fuel b (rest.drop (hdrlen - 1))
        else none
    else none

/-- The extension-header walk of is_icmpv6_msg.  Every iteration of the
C loop consumes hdrlen, at least 8 octets, so a fuel of length + 1 is
never exhausted; the fuel keeps the recursion structural so that the
kernel can evaluate it. -/
def icmpv6_skip_exthdrs (nh : Nat) (bytes : List Nat) : Option (Nat × Nat) :=
  icmpv6_skip_exthdrs_fuel (bytes.length + 1) nh bytes

/-- is_icmpv6_msg: the whole offending packet (IPv6 header included) is
in data; returns (type, code) of the embedded ICMPv6 message if the
chain parses down to an ICMPv6 header. -/
def is_icmpv6_msg (data : List Nat) : Option (Nat × Nat) :=
  if data.length < IPV6_HDRLEN then none
  else
    let ip_len := 256 * data.getD 4 0 + data.getD 5 0
    let nh := data.getD 6 0
    let rest := data.drop IPV6_HDRLEN
    if rest.length < ip_len then none
    else icmpv6_skip_exthdrs nh (rest.take ip_len)

/-! ## icmpv6_error (icmpv6.c lines 115-194)

The ICMPv6 error responder.  Returns the emitted error packet (none
models buffer_free / a NULL return, i.e. nothing is sent) and the new
token count of the interface.  The STATS_IP_RX_DROP counter update is a
pure statistics counter and is not modelled. -/

structure EmittedErr where
  etype : Nat
  ecode : Nat
  hop_limit : Nat
  src_sa : SockAddr
  dst_sa : SockAddr
  data_len : Nat
deriving Repr, DecidableEq

/-- Tail of icmpv6_error after the RFC 4443 e.1-e.2 test. -/
def icmpv6_error_rest (env : Env) (tokens : Nat) (buf : Buffer) (ty code : Nat) :
    Option EmittedErr × Nat :=
  -- RFC 4443 e.3-e.5: no errors for multicasts, with two exceptions
  if (addr_is_ipv6_multicast buf.dst_sa.addr || buf.options.ll_broadcast_rx ||
      buf.options.ll_multicast_rx) &&
     !(ty == ICMPV6_TYPE_ERROR_PACKET_TOO_BIG ||
       (ty == ICMPV6_TYPE_ERROR_PARAMETER_PROBLEM &&
        code == ICMPV6_CODE_PARAM_PRB_UNREC_IPV6_OPT)) then
    (none, tokens)
  -- RFC 4443 e.6: source does not identify a single node
  else if addr_is_ipv6_unspecified buf.src_sa.addr ||
          addr_is_ipv6_multicast buf.src_sa.addr then
    (none, tokens)
  else
    -- address selection: swap if addressed to us, else let routing choose
    let ours := env.addr_compare_ok buf.dst_sa.addr
    let newSrc : SockAddr :=
      if ours then { buf.src_sa with addr := buf.dst_sa.addr }
      else { buf.src_sa with addr_type := ADDR_NONE }
    let newDst : SockAddr :=
      if ours then { buf.dst_sa with addr := buf.src_sa.addr }
      else buf.src_sa
    let routed : Buffer := { buf with src_sa := newSrc, dst_sa := newDst }
    if !env.route_ok routed then (none, tokens)
    -- token-bucket rate limiting
    else if tokens = 0 then (none, tokens)
    else if !env.headroom_ok then (none, tokens - 1)
    else
      (some { etype := ty, ecode := code, hop_limit := env.cur_hop_limit,
              src_sa := newSrc, dst_sa := newDst,
              data_len := min buf.data.length (env.max_unfrag_payload - 8) },
       tokens - 1)

/-- The condition of the RFC 4443 e.1-e.2 test at icmpv6.c line 134:
the offending packet is recognisable ICMPv6 and its type is an error
(less than 128) or a Redirect. -/
def icmpv6_is_error_or_redirect (data : List Nat) : Bool :=
  match is_icmpv6_msg data with
  | some tc => decide (tc.1 < 128) || tc.1 == ICMPV6_TYPE_INFO_REDIRECT
  | none => false

def icmpv6_error (env : Env) (tokens : Nat) (buf : Buffer) (ty code : Nat) :
    Option EmittedErr × Nat :=
  -- no ICMP errors for improperly-secured packets
  if buf.options.ll_security_bypass_rx then (none, tokens)
  -- RFC 4443 e.1-e.2: no errors for ICMPv6 errors or redirects
  else if icmpv6_is_error_or_redirect buf.data then (none, tokens)
  else icmpv6_error_rest env tokens buf ty code

/-! ## Token bucket refill (protocol.c lines 51-60) and traces

icmp_fast_timer adds the elapsed ticks (the timer delivers 10 ticks per
second, the RFC 4443 default) to the uint16_t icmp_tokens counter and
clamps it at the bucket size 10.  protocol_init starts the bucket at
10 tokens. -/

def icmp_fast_timer (tokens ticks : Nat) : Nat :=
  let t := (tokens + ticks) % 65536
  if t > 10 then 10 else t

/-- Events the token-bucket subsystem sees: a refill from the fast
timer carrying the elapsed ticks, or a request to emit an ICMPv6 error
for a buffer. -/
inductive TbEvent where
  | tick (n : Nat)
  | req (buf : Buffer) (ty code : Nat)

/-- One token-bucket step: new token count and 1 when an error packet
was emitted. -/
def tb_step (env : Env) (tokens : Nat) : TbEvent → Nat × Nat
  | .tick n => (icmp_fast_timer tokens n, 0)
  | .req buf ty code =>
    let r := icmpv6_error env tokens buf ty code
    (r.2, if r.1.isSome then 1 else 0)

/-- Run a trace of events; returns the final token count and the total
number of ICMPv6 error packets emitted. -/
def tb_run (env : Env) (tokens : Nat) : List TbEvent → Nat × Nat
  | [] => (tokens, 0)
  | e :: es =>
    let s := tb_step env tokens e
    let r := tb_run env s.1 es
    (r.1, s.2 + r.2)

/-- Total refill ticks carried by a trace.  One second of the 10
ticks-per-second refill schedule delivers at most 10 ticks. -/
def tb_ticks : List TbEvent → Nat
  | [] => 0
  | .tick n :: es => n + tb_ticks es
  | .req _ _ _ :: es => tb_ticks es

/-! ## Neighbour Discovery option parsing (icmpv6.c lines 196-243)

The iobuf-based option walkers.  icmpv6_nd_option_get loops forever in
C when the chain contains a zero-length or overlong option of a type
other than the sought one (iobuf_pop_data_ptr does not advance then);
the model returns a failed search on those inputs. -/

def nd_options_validate_fuel : Nat → List Nat → Bool
  | 0, _ => false
  | _ + 1, [] => true
  | fuel + 1, _ :: rest =>
    let l := 8 * rest.headD 0
    if 0 < l ∧ l ≤ rest.length + 1 then
      nd_options_validate_fuel fuel (rest.drop (l - 1))
    else false

/-- icmpv6_nd_options_validate: each accepted option consumes l, at
least 8 octets, so a fuel of length + 1 is never exhausted. -/
def nd_options_validate (bytes : List Nat) : Bool :=
  nd_options_validate_fuel (bytes.length + 1) bytes

def nd_option_find_fuel : Nat → Nat → List Nat → Option (List Nat)
  | 0, _, _ => none
  | _ + 1, _, [] => none
  | fuel + 1, opt, t :: rest =>
    let l := 8 * rest.headD 0
    if t = opt then
      if l ≤ rest.length + 1 then some ((t :: rest).take l) else none
    else if 0 < l ∧ l ≤ rest.length + 1 then
      nd_option_find_fuel fuel opt (rest.drop (l - 1))
    else none

/-- icmpv6_nd_option_get: returns the option of the given type (header
octets included, payload possibly empty).  Every skipped option
consumes at least 8 octets, so a fuel of length + 1 is never
exhausted. -/
def nd_option_find (opt : Nat) (bytes : List Nat) : Option (List Nat) :=
  nd_option_find_fuel (bytes.length + 1) opt bytes

/-- icmpv6_options_well_formed_in_buffer (icmpv6.c lines 992-1000). -/
def icmpv6_options_well_formed_in_buffer (data : List Nat) (off : Nat) : Bool :=
  if data.length < off then false
  else nd_options_validate (data.drop off)

/-- icmpv6_nd_ws_sllao_dummy (icmpv6.c lines 268-292): synthesize an
SLLAO from the EUI-64 carried at octets 8..16 of the EARO.  The C
helper succeeds exactly when the EARO holds at least 16 octets. -/
def icmpv6_nd_ws_sllao_dummy (earo : List Nat) : List Nat :=
  [ICMPV6_OPT_SRC_LL_ADDR, 2] ++ (earo.drop 8).take 8 ++ List.replicate 6 0

/-! ## Neighbor Advertisement construction (icmpv6.c lines 872-988) -/

structure EmittedNA where
  hop_limit : Nat
  icmp_type : Nat
  icmp_code : Nat
  flags : Nat
  target : List Nat
  src_addr : List Nat
  dst_addr : List Nat
  earo : Option EaroOut
deriving Repr, DecidableEq

/-- Link-local address rebuilt from an EUI-64: fe80:: prefix, IID with
bit 1 of octet 0 inverted (icmpv6.c lines 920-922). -/
def ll_address_from_eui64 (eui64 : List Nat) : List Nat :=
  ADDR_LINK_LOCAL_PFX8 ++ ((eui64.headD 0 ^^^ 2) :: (eui64.drop 1).take 7)

/-- icmpv6_build_na.  Returns the emitted NA (none models the omit
paths, allocation failure and the negative-ARO abort, where the C code
returns NULL) together with the Wi-SUN layer calls it made.  The
ack_receive_cb assignment and the CS6 traffic class of the negative-ARO
path carry no information the claims touch and are not modelled. -/
def icmpv6_build_na (env : Env) (solicited override tllao_required : Bool)
    (target : List Nat) (earo : Option EaroOut) (src_addr : List Nat) :
    Option EmittedNA × List WsEvent :=
  -- ARO response with status success can be omitted
  if env.omit_na_aro_success &&
     (match earo with
      | some e => !(e.r && e.t) && e.status == ARO_SUCCESS
      | none => false) then (none, [])
  -- all other than ARO NA messages are omitted, MAC ACK acts as success
  else if !tllao_required && (earo.isNone && env.omit_na) then (none, [])
  else if !env.alloc_ok then (none, [])
  else
    let unspec := addr_is_ipv6_unspecified src_addr
    -- flags: NA_O if override; NA_S if solicited, but never when
    -- replying to DAD (the C code sets NA_S inside the else-branch of
    -- the unspecified-source test, which is the same value)
    let flags := (if override then NA_O else 0) |||
                 (if solicited && !unspec then NA_S else 0)
    let dst_addr :=
      if unspec then ADDR_LINK_LOCAL_ALL_NODES
      else
        match earo with
        | some e =>
          -- RFC 6775 6.5.2: errors go to the LL64 derived from the
          -- EUI-64, success to the IP source address
          if e.status != ARO_SUCCESS then ll_address_from_eui64 e.eui64
          else src_addr
        | none => src_addr
    let srcSel : Option (List Nat) :=
      if env.addr_is_assigned target then some target
      else env.addr_select_source dst_addr
    match srcSel with
    | none => (none, [])
    | some src =>
      let na : EmittedNA :=
        { hop_limit := 255, icmp_type := ICMPV6_TYPE_INFO_NA, icmp_code := 0,
          flags := flags, target := target, src_addr := src,
          dst_addr := dst_addr, earo := earo }
      match earo with
      | some e =>
        if e.status != ARO_SUCCESS && e.status != ARO_TOPOLOGICALLY_INCORRECT then
          if env.negative_aro_mark e.eui64 then
            (some na, [WsEvent.negAroMark e.eui64])
          else (none, [WsEvent.negAroMark e.eui64])
        else (some na, [])
      | none => (some na, [])

/-! ## Neighbor Solicitation handler (icmpv6.c lines 325-429) -/

/-- Target address field of an NS/NA, as the iobuf reads deliver it:
the 16 octets after the 4 reserved octets, zero-filled when the message
is too short (iobuf_pop_data zero-fills on underflow). -/
def ns_target (data : List Nat) : List Nat :=
  if 20 ≤ data.length then (data.drop 4).take 16 else List.replicate 16 0

/-- Option region of an NS as iobuf_ptr delivers it: the read cursor
does not advance past a failed pop, so a short message leaves the
cursor before the unread field. -/
def ns_opt_region (data : List Nat) : List Nat :=
  if 20 ≤ data.length then data.drop 20
  else if 4 ≤ data.length then data.drop 4
  else data

/-- Tail of icmpv6_ns_handler from the point where normal RFC 4861
processing resumes after the EARO dispatch (icmpv6.c lines 410-421). -/
def ns_reply (env : Env) (st : StackState) (buf : Buffer) (target : List Nat)
    (sllao : Option (List Nat)) (na_earo : Option EaroOut) :
    StackState × Option EmittedNA :=
  -- if no ARO is being returned, normal RFC 4861 unsolicited update;
  -- if_llao_parse writes the parsed link-layer address into buf->dst_sa
  let parsed : Option SockAddr :=
    match na_earo, sllao with
    | none, some sb => env.if_llao_parse sb
    | _, _ => none
  let cache1 :=
    match parsed with
    | some sa => env.update_unsolicited st.neighCache buf.src_sa.addr sa
    | none => st.neighCache
  let dstSa1 : SockAddr :=
    match parsed with
    | some sa => sa
    | none => buf.dst_sa
  let proxy := !env.addr_compare_ok target
  let r := icmpv6_build_na env true (!proxy) (addr_is_ipv6_multicast dstSa1.addr)
    target na_earo buf.src_sa.addr
  ({ st with neighCache := cache1, wsEvents := st.wsEvents ++ r.2 }, r.1)

/-- icmpv6_ns_handler.  Returns the new stack state and the NA sent in
reply (none models every drop path). -/
def icmpv6_ns_handler (env : Env) (st : StackState) (buf : Buffer) :
    StackState × Option EmittedNA :=
  let target := ns_target buf.data
  let region := ns_opt_region buf.data
  let sllao0 := nd_option_find ICMPV6_OPT_SRC_LL_ADDR region
  let earo0 :=
    if env.recv_addr_reg then nd_option_find ICMPV6_OPT_ADDR_REGISTRATION region
    else none
  -- Wi-SUN: an ARO without an SLLAO gets a dummy SLLAO built from the
  -- EUI-64 inside the ARO
  let sllao1 :=
    match sllao0, earo0 with
    | none, some eb =>
      if 16 ≤ eb.length then some (icmpv6_nd_ws_sllao_dummy eb) else none
    | s, _ => s
  -- RFC 4861 7.1.1 validity checks
  if buf.options.hop_limit != 255 then (st, none)
  else if buf.options.code != 0 then (st, none)
  else if addr_is_ipv6_multicast target then (st, none)
  else if !nd_options_validate region then (st, none)
  else if addr_is_ipv6_unspecified buf.src_sa.addr &&
          (buf.dst_sa.addr.take 13 == ADDR_MULTICAST_SOLICITED || sllao1.isSome) then
    -- NOTE: faithful to icmpv6.c line 379; the !memcmp sense is
    -- inverted with respect to the RFC text quoted in the C comment
    (st, none)
  else
    let proxy := !env.addr_compare_ok target
    if proxy && addr_is_ipv6_link_local target then (st, none)
    else
      match earo0 with
      | some eb =>
        let r := env.nd_ns_earo_handler st.regState eb sllao1 buf.src_sa.addr target
        let st1 := { st with regState := r.1 }
        if !r.2.1 then (st1, none)
        else ns_reply env st1 buf target sllao1 r.2.2
      | none => ns_reply env st buf target sllao1 none

/-! ## Neighbor Advertisement handler (icmpv6.c lines 245-263, 470-541) -/

/-- icmpv6_na_wisun_aro_handler: run on an NA carrying a length-2 ARO;
returns the Wi-SUN layer calls made. -/
def icmpv6_na_wisun_aro_handler (env : Env) (aro : List Nat) (src_addr : List Nat) :
    List WsEvent :=
  let nd_status := aro.getD 2 0
  if (aro.drop 8).take 8 != env.mac.take 8 then []
  else if nd_status != ARO_SUCCESS then
    [WsEvent.blacklist src_addr nd_status, WsEvent.aroFailure src_addr]
  else []

/-- Target address field of an inbound NA (read after the length check
of icmpv6_options_well_formed_in_buffer guarantees 20 octets). -/
def na_target (data : List Nat) : List Nat :=
  (data.drop 4).take 16

/-- icmpv6_na_handler.  The handler only ever frees the buffer, so the
result is the new stack state. -/
def icmpv6_na_handler (env : Env) (st : StackState) (buf : Buffer) : StackState :=
  if buf.options.code != 0 || buf.options.hop_limit != 255 then st
  else if !icmpv6_options_well_formed_in_buffer buf.data 20 then st
  else
    let flags := buf.data.headD 0
    let target := na_target buf.data
    if addr_is_ipv6_multicast target then st
    -- solicited flag must be clear if sent to a multicast address
    else if addr_is_ipv6_multicast buf.dst_sa.addr && (flags &&& NA_S) != 0 then st
    -- RFC 4862 5.4.4 DAD check: NA for one of our own addresses
    else if env.addr_get_entry target then st
    else
      let aro0 :=
        match nd_option_find ICMPV6_OPT_ADDR_REGISTRATION (buf.data.drop 20) with
        | some ab => if ab.getD 1 0 != 2 then none else some ab
        | none => none
      let evs :=
        match aro0 with
        | some ab => icmpv6_na_wisun_aro_handler env ab buf.src_sa.addr
        | none => []
      let st1 := { st with wsEvents := st.wsEvents ++ evs }
      -- no need to create a neighbour cache entry if none exists
      match st1.neighCache.find? (fun e => e.ip == target) with
      | none => st1
      | some entry =>
        let dstSa1 : SockAddr :=
          match nd_option_find ICMPV6_OPT_TGT_LL_ADDR (buf.data.drop 20) with
          | some tb =>
            match env.if_llao_parse tb with
            | some sa => sa
            | none => { buf.dst_sa with addr_type := ADDR_NONE }
          | none => { buf.dst_sa with addr_type := ADDR_NONE }
        let upd := env.update_from_na entry flags dstSa1
        let entry1 : NeighEntry :=
          { entry with state := upd.1, ll_type := upd.2.1, ll_addr := upd.2.2 }
        let cache1 := st1.neighCache.map (fun e => if e.ip == target then entry1 else e)
        let evs2 :=
          if entry1.state == IP_NEIGHBOUR_REACHABLE then [WsEvent.neighborUpdate target]
          else []
        { st1 with neighCache := cache1, wsEvents := st1.wsEvents ++ evs2 }

/-! ## Neighbor Solicitation construction (icmpv6.c lines 746-844) -/

structure EmittedNS where
  icmp_type : Nat
  icmp_code : Nat
  hop_limit : Nat
  src_addr : List Nat
  dst_addr : List Nat
  data : List Nat
deriving Repr, DecidableEq

def write_be16 (n : Nat) : List Nat := [n / 256 % 256, n % 256]

/-- icmpv6_build_ns.  prompting_src_addr is an optional pointer in C;
when an ARO is supplied the code copies from it unconditionally (a NULL
pointer there would be undefined behaviour; callers pass the registered
address), modelled by zero-filling.  The ack_receive_cb selection and
the forced on-link routing carry no information the claims touch. -/
def icmpv6_build_ns (env : Env) (target_addr : List Nat)
    (prompting_src_addr : Option (List Nat)) (unicast unspecified_source : Bool)
    (aro : Option EaroOut) : Option EmittedNS :=
  if addr_is_ipv6_multicast target_addr then none
  else if !env.alloc_ok then none
  else
    let data :=
      [0, 0, 0, 0] ++ target_addr.take 16 ++
      (match aro with
       | some a =>
         [ICMPV6_OPT_ADDR_REGISTRATION, 2, a.status, 0] ++ write_be16 0 ++
         write_be16 a.lifetime ++ a.eui64.take 8
       | none => [])
    let dst :=
      if unicast then target_addr
      else ADDR_MULTICAST_SOLICITED ++ (target_addr.drop 13).take 3
    if unspecified_source then
      some { icmp_type := ICMPV6_TYPE_INFO_NS, icmp_code := 0, hop_limit := 255,
             src_addr := List.replicate 16 0, dst_addr := dst, data := data }
    else
      let srcSel : Option (List Nat) :=
        if aro.isSome ||
           (match prompting_src_addr with
            | some p => env.addr_is_assigned p
            | none => false) then
          some ((prompting_src_addr.getD (List.replicate 16 0)).take 16)
        else env.addr_get_ll
      match srcSel with
      | none => none
      | some src =>
        some { icmp_type := ICMPV6_TYPE_INFO_NS, icmp_code := 0, hop_limit := 255,
               src_addr := src, dst_addr := dst, data := data }

/-! ## Reachable time (protocol.c lines 45-79)

The RFC 4861 ReachableTime reroll.  protocol.c is under review;
rand_randomise_base lives in common/rand.c which is not. -/

/-- REACHABLE_TIME_UPDATE_SECONDS (protocol.c line 47). -/
def REACHABLE_TIME_UPDATE_SECONDS : Nat := 600

/-- Modelled from the spec: rand_randomise_base (common/rand.c) is not
among the sources under review; the spec states the reroll is drawn
uniformly from the interval 0.5 x base .. 1.5 x base.  The draw is a
function of an external random value u: the result base / 2 + u % (base + 1)
ranges exactly over that interval (up to the floor of 0.5 x base) as u
ranges over the naturals, and is uniform when u is drawn uniformly from
a span whose length is a multiple of base + 1. -/
def rand_randomise_base (base u : Nat) : Nat := base / 2 + u % (base + 1)

/-- RFC 4861 host variables of the interface that the reroll touches. -/
structure IfTimers where
  base_reachable_time : Nat
  reachable_time_ttl : Nat
  reachable_time : Nat
deriving Repr, DecidableEq

/-- protocol_stack_interface_set_reachable_time (protocol.c lines 62-68);
u is the random draw consumed by rand_randomise_base. -/
def protocol_stack_interface_set_reachable_time (_cur : IfTimers) (base u : Nat) :
    IfTimers :=
  { base_reachable_time := base,
    reachable_time_ttl := REACHABLE_TIME_UPDATE_SECONDS,
    reachable_time := rand_randomise_base base u }

/-- update_reachable_time (protocol.c lines 70-79). -/
def update_reachable_time (cur : IfTimers) (seconds u : Nat) : IfTimers :=
  if seconds < cur.reachable_time_ttl then
    { cur with reachable_time_ttl := cur.reachable_time_ttl - seconds }
  else
    protocol_stack_interface_set_reachable_time cur cur.base_reachable_time u

/-! ## Concrete instances used by witnesses and counterexamples -/

def fe80_1 : List Nat := [0xfe, 0x80, 0, 0, 0, 0, 0, 0, 0, 0, 0, 0, 0, 0, 0, 1]
def fe80_2 : List Nat := [0xfe, 0x80, 0, 0, 0, 0, 0, 0, 0, 0, 0, 0, 0, 0, 0, 2]
def addr_unspec : List Nat := List.replicate 16 0
/-- ff02::1:ff00:2, the solicited-node multicast address of fe80::2. -/
def solicited_2 : List Nat :=
  [0xff, 0x02, 0, 0, 0, 0, 0, 0, 0, 0, 0, 0x01, 0xff, 0, 0, 2]

/-- Concrete interface context: fe80::2 is our (assigned) address,
routing always succeeds, nothing is omitted, the registration handler
accepts and answers with a success EARO. -/
def envW : Env :=
  { addr_compare_ok := fun a => a == fe80_2,
    addr_is_assigned := fun a => a == fe80_2,
    addr_select_source := fun _ => some fe80_2,
    addr_get_ll := some fe80_1,
    addr_get_entry := fun _ => false,
    if_llao_parse := fun b => some ⟨3, (b.drop 2).take 8⟩,
    route_ok := fun _ => true,
    headroom_ok := true,
    alloc_ok := true,
    cur_hop_limit := 64,
    max_unfrag_payload := 1280,
    recv_addr_reg := true,
    omit_na_aro_success := false,
    omit_na := false,
    mac := [2, 0x11, 0x22, 0x33, 0x44, 0x55, 0x66, 0x77],
    update_from_na := fun _ _ sa => (IP_NEIGHBOUR_REACHABLE, sa.addr_type, sa.addr),
    update_unsolicited := fun c _ _ => c,
    nd_ns_earo_handler := fun rs eb _ _ _ =>
      (rs + 1, true, some ⟨ARO_SUCCESS, 0, false, false, false, 0, 3600, (eb.drop 8).take 8⟩),
    negative_aro_mark := fun _ => true }

/-- A plain offending packet that passes every filter of the error
responder: too short to be recognisable ICMPv6, unicast everywhere,
properly secured. -/
def bufPlain : Buffer :=
  { data := [], src_sa := ⟨ADDR_IPV6, fe80_1⟩, dst_sa := ⟨ADDR_IPV6, fe80_2⟩,
    options := ⟨0, 0, 64, false, false, false⟩ }

/-! ## Token accounting helper lemmas -/

theorem icmpv6_error_tokens_cases (env : Env) (tokens : Nat) (buf : Buffer)
    (ty code : Nat) :
    icmpv6_error env tokens buf ty code = (none, tokens) ∨
    (0 < tokens ∧ (icmpv6_error env tokens buf ty code).2 = tokens - 1) := by
  have hrest : icmpv6_error_rest env tokens buf ty code = (none, tokens) ∨
      (0 < tokens ∧ (icmpv6_error_rest env tokens buf ty code).2 = tokens - 1) := by
    unfold icmpv6_error_rest
    dsimp only
    split_ifs <;>
      first
        | exact Or.inl rfl
        | exact Or.inr ⟨Nat.pos_of_ne_zero (by assumption), rfl⟩
  unfold icmpv6_error
  split_ifs with hb hm
  · exact Or.inl rfl
  · exact Or.inl rfl
  · exact hrest

theorem icmp_fast_timer_le_add (tokens n : Nat) :
    icmp_fast_timer tokens n ≤ tokens + n := by
  unfold icmp_fast_timer
  have h := Nat.mod_le (tokens + n) 65536
  dsimp only
  split_ifs with h1
  · omega
  · exact h

theorem tb_run_emissions_le (env : Env) :
    ∀ (evs : List TbEvent) (tokens : Nat),
      (tb_run env tokens evs).2 ≤ tokens + tb_ticks evs := by
  intro evs
  induction evs with
  | nil => intro tokens; simp [tb_run, tb_ticks]
  | cons e es ih =>
    intro tokens
    cases e with
    | tick n =>
      have h1 := icmp_fast_timer_le_add tokens n
      have h2 := ih (icmp_fast_timer tokens n)
      simp only [tb_run, tb_step, tb_ticks]
      omega
    | req buf ty code =>
      rcases icmpv6_error_tokens_cases env tokens buf ty code with hc | ⟨hpos, htok⟩
      · have h2 := ih tokens
        simp only [tb_run, tb_step, tb_ticks, hc]
        simpa using h2
      · have h2 := ih (icmpv6_error env tokens buf ty code).2
        have hind : (if (icmpv6_error env tokens buf ty code).1.isSome then 1 else 0) ≤ 1 := by
          split_ifs <;> simp
        simp only [tb_run, tb_step, tb_ticks]
        omega

/-- C1 (amended): the error token bucket clamps at capacity 10; every
emitted error consumes exactly one token; a request with an empty
bucket is suppressed with the packet freed; and over any event window
carrying at most one second of refill (at most 10 ticks), starting from
any reachable bucket level (at most 10 tokens, the protocol_init
value), at most 20 ICMPv6 error packets are emitted.  The bound 10
claimed by the spec is refuted by C1_window_counterexample. -/
theorem C1_token_bucket_amended :
    (∀ tokens ticks, icmp_fast_timer tokens ticks ≤ 10) ∧
    (∀ (env : Env) (tokens : Nat) (buf : Buffer) (ty code : Nat),
       (icmpv6_error env tokens buf ty code).1.isSome = true →
       0 < tokens ∧ (icmpv6_error env tokens buf ty code).2 = tokens - 1) ∧
    (∀ (env : Env) (buf : Buffer) (ty code : Nat),
       icmpv6_error env 0 buf ty code = (none, 0)) ∧
    (∀ (env : Env) (tokens : Nat) (evs : List TbEvent),
       tokens ≤ 10 → tb_ticks evs ≤ 10 → (tb_run env tokens evs).2 ≤ 20) := by
  refine ⟨?_, ?_, ?_, ?_⟩
  · intro tokens ticks
    unfold icmp_fast_timer
    dsimp only
    split_ifs with h1
    · exact le_refl 10
    · omega
  · intro env tokens buf ty code hsome
    rcases icmpv6_error_tokens_cases env tokens buf ty code with hc | hc
    · rw [hc] at hsome; simp at hsome
    · exact hc
  · intro env buf ty code
    rcases icmpv6_error_tokens_cases env 0 buf ty code with hc | hc
    · exact hc
    · omega
  · intro env tokens evs htok hticks
    have h := tb_run_emissions_le env evs tokens
    omega

/-- C1 witness: at the concrete inputs, the refill clamps at 10, an
emission from 10 tokens leaves 9, an empty bucket suppresses, and the
concrete 11-emission trace stays under the amended bound of 20. -/
theorem C1_token_bucket_amended_witness :
    icmp_fast_timer 10 3 ≤ 10 ∧
    (0 < 10 ∧ (icmpv6_error envW 10 bufPlain 1 0).2 = 10 - 1) ∧
    icmpv6_error envW 0 bufPlain 1 0 = (none, 0) ∧
    (tb_run envW 10 (List.replicate 10 (TbEvent.req bufPlain 1 0) ++
       [TbEvent.tick 1, TbEvent.req bufPlain 1 0])).2 ≤ 20 :=
  ⟨C1_token_bucket_amended.1 10 3,
   C1_token_bucket_amended.2.1 envW 10 bufPlain 1 0 (by decide),
   C1_token_bucket_amended.2.2.1 envW bufPlain 1 0,
   C1_token_bucket_amended.2.2.2 envW 10 _ (by decide) (by decide)⟩

/-- C1 counterexample to the claimed window bound of 10: starting from
the initial bucket of 10 tokens (protocol_init, protocol.c line 132), a
trace of ten error requests, one refill tick (one tenth of a second of
the 10 tick-per-second schedule, so the whole trace fits inside a
single 1-second window) and one more request emits 11 > 10 error
packets. -/
theorem C1_window_counterexample :
    tb_ticks (List.replicate 10 (TbEvent.req bufPlain 1 0) ++
      [TbEvent.tick 1, TbEvent.req bufPlain 1 0]) = 1 ∧
    (tb_run envW 10 (List.replicate 10 (TbEvent.req bufPlain 1 0) ++
      [TbEvent.tick 1, TbEvent.req bufPlain 1 0])).2 = 11 := by
  constructor
  · decide
  · decide

/-- C9: a packet with the link-layer security-bypass flag set is freed
by icmpv6_error with no error emitted and no token consumed, for every
requested type and code, every token-bucket level and every
environment; the test is the first statement of the responder, before
every RFC 4443 rule. -/
theorem C9_security_bypass_first (env : Env) (tokens : Nat) (buf : Buffer)
    (ty code : Nat) (h : buf.options.ll_security_bypass_rx = true) :
    icmpv6_error env tokens buf ty code = (none, tokens) := by
  unfold icmpv6_error
  simp [h]

def bufBypass : Buffer :=
  { data := [], src_sa := ⟨ADDR_IPV6, fe80_1⟩, dst_sa := ⟨ADDR_IPV6, fe80_2⟩,
    options := ⟨0, 0, 64, true, false, false⟩ }

theorem C9_security_bypass_first_witness :
    icmpv6_error envW 7 bufBypass 3 0 = (none, 7) :=
  C9_security_bypass_first envW 7 bufBypass 3 0 (by decide)

/-- C2: the RFC 4443 e.1-e.6 filters of icmpv6_error: no error is ever
emitted (the offending packet is freed, the token count untouched) in
reply to a recognisable ICMPv6 error (type below 128) or Redirect; in
reply to a packet addressed to an IPv6 multicast destination or
received over link-layer broadcast or multicast, unless the requested
error is PACKET_TOO_BIG or PARAMETER_PROBLEM with code UNREC_IPV6_OPT;
and in reply to a packet whose source address is unspecified or
multicast. -/
theorem C2_error_responder_filters :
    (∀ (env : Env) (tokens : Nat) (buf : Buffer) (ty code t c : Nat),
       is_icmpv6_msg buf.data = some (t, c) →
       t < 128 ∨ t = ICMPV6_TYPE_INFO_REDIRECT →
       icmpv6_error env tokens buf ty code = (none, tokens)) ∧
    (∀ (env : Env) (tokens : Nat) (buf : Buffer) (ty code : Nat),
       (addr_is_ipv6_multicast buf.dst_sa.addr || buf.options.ll_broadcast_rx ||
        buf.options.ll_multicast_rx) = true →
       ¬(ty = ICMPV6_TYPE_ERROR_PACKET_TOO_BIG ∨
         (ty = ICMPV6_TYPE_ERROR_PARAMETER_PROBLEM ∧
          code = ICMPV6_CODE_PARAM_PRB_UNREC_IPV6_OPT)) →
       icmpv6_error env tokens buf ty code = (none, tokens)) ∧
    (∀ (env : Env) (tokens : Nat) (buf : Buffer) (ty code : Nat),
       (addr_is_ipv6_unspecified buf.src_sa.addr ||
        addr_is_ipv6_multicast buf.src_sa.addr) = true →
       icmpv6_error env tokens buf ty code = (none, tokens)) := by
  refine ⟨?_, ?_, ?_⟩
  · intro env tokens buf ty code t c hmsg hty
    have hcond : icmpv6_is_error_or_redirect buf.data = true := by
      unfold icmpv6_is_error_or_redirect
      rw [hmsg]
      rcases hty with h | h
      · simp [h]
      · simp [h]
    unfold icmpv6_error
    simp only [hcond]
    split_ifs with hb
    · rfl
    · rfl
  · intro env tokens buf ty code hmc hex
    have hB : (ty == ICMPV6_TYPE_ERROR_PACKET_TOO_BIG ||
               (ty == ICMPV6_TYPE_ERROR_PARAMETER_PROBLEM &&
                code == ICMPV6_CODE_PARAM_PRB_UNREC_IPV6_OPT)) = false := by
      push_neg at hex
      simp only [Bool.or_eq_false_iff, Bool.and_eq_false_iff, beq_eq_false_iff_ne, ne_eq]
      refine ⟨hex.1, ?_⟩
      by_cases h4 : ty = ICMPV6_TYPE_ERROR_PARAMETER_PROBLEM
      · exact Or.inr (hex.2 h4)
      · exact Or.inl h4
    have hrest : icmpv6_error_rest env tokens buf ty code = (none, tokens) := by
      unfold icmpv6_error_rest
      rw [hmc, hB]
      simp
    unfold icmpv6_error
    split_ifs with hb hm
    · rfl
    · rfl
    · exact hrest
  · intro env tokens buf ty code hsrc
    have hrest : icmpv6_error_rest env tokens buf ty code = (none, tokens) := by
      unfold icmpv6_error_rest
      simp only [hsrc]
      split_ifs with h1
      · rfl
      · rfl
    unfold icmpv6_error
    split_ifs with hb hm
    · rfl
    · rfl
    · exact hrest

/-- An offending packet that is itself an ICMPv6 Destination
Unreachable error: a 40-octet IPv6 header announcing a 4-octet ICMPv6
payload of type 1, code 0. -/
def bufEmbeddedIcmpErr : Buffer :=
  { data := [0x60, 0, 0, 0, 0, 4, IPV6_NH_ICMPV6, 255] ++ fe80_1 ++ fe80_2 ++ [1, 0, 0, 0],
    src_sa := ⟨ADDR_IPV6, fe80_1⟩, dst_sa := ⟨ADDR_IPV6, fe80_2⟩,
    options := ⟨0, 0, 64, false, false, false⟩ }

def bufMcastDst : Buffer :=
  { data := [], src_sa := ⟨ADDR_IPV6, fe80_1⟩, dst_sa := ⟨ADDR_IPV6, ADDR_LINK_LOCAL_ALL_NODES⟩,
    options := ⟨0, 0, 64, false, false, false⟩ }

def bufUnspecSrc : Buffer :=
  { data := [], src_sa := ⟨ADDR_IPV6, addr_unspec⟩, dst_sa := ⟨ADDR_IPV6, fe80_2⟩,
    options := ⟨0, 0, 64, false, false, false⟩ }

theorem C2_error_responder_filters_witness :
    icmpv6_error envW 5 bufEmbeddedIcmpErr 3 0 = (none, 5) ∧
    icmpv6_error envW 5 bufMcastDst 1 0 = (none, 5) ∧
    icmpv6_error envW 5 bufUnspecSrc 1 0 = (none, 5) :=
  ⟨C2_error_responder_filters.1 envW 5 bufEmbeddedIcmpErr 3 0 1 0 (by decide)
     (Or.inl (by decide)),
   C2_error_responder_filters.2.1 envW 5 bufMcastDst 1 0 (by decide) (by decide),
   C2_error_responder_filters.2.2 envW 5 bufUnspecSrc 1 0 (by decide)⟩

/-- C8: the reachable-time reroll lands in the interval from half the
base to one-and-a-half times the base (the bounds stated for integer
values, where the lower bound is the floor of half the base), every
value of that interval is reachable (the modelled draw is uniform for a
uniform random input); a reroll resets the 600-second countdown and is
performed by every base change (protocol_stack_interface_set_reachable_time
is the only setter of the base), while update_reachable_time only
counts down and rerolls exactly when the 600 seconds have elapsed. -/
theorem C8_reachable_time_reroll :
    (∀ base u, base / 2 ≤ rand_randomise_base base u ∧
       rand_randomise_base base u ≤ base / 2 + base ∧
       base ≤ 2 * rand_randomise_base base u + 1 ∧
       2 * rand_randomise_base base u ≤ 3 * base) ∧
    (∀ base v, base / 2 ≤ v → v ≤ base / 2 + base →
       ∃ u, rand_randomise_base base u = v) ∧
    (∀ cur base u, protocol_stack_interface_set_reachable_time cur base u =
       { base_reachable_time := base,
         reachable_time_ttl := REACHABLE_TIME_UPDATE_SECONDS,
         reachable_time := rand_randomise_base base u }) ∧
    (∀ (cur : IfTimers) (s u : Nat), s < cur.reachable_time_ttl →
       update_reachable_time cur s u =
         { cur with reachable_time_ttl := cur.reachable_time_ttl - s }) ∧
    (∀ (cur : IfTimers) (s u : Nat), cur.reachable_time_ttl ≤ s →
       update_reachable_time cur s u =
         protocol_stack_interface_set_reachable_time cur cur.base_reachable_time u) := by
  refine ⟨?_, ?_, ?_, ?_, ?_⟩
  · intro base u
    unfold rand_randomise_base
    have hmod : u % (base + 1) ≤ base := Nat.le_of_lt_succ (Nat.mod_lt u (Nat.succ_pos base))
    omega
  · intro base v h1 h2
    refine ⟨v - base / 2, ?_⟩
    unfold rand_randomise_base
    have : (v - base / 2) % (base + 1) = v - base / 2 :=
      Nat.mod_eq_of_lt (by omega)
    omega
  · intro cur base u
    rfl
  · intro cur s u h
    unfold update_reachable_time
    rw [if_pos h]
  · intro cur s u h
    unfold update_reachable_time
    rw [if_neg (by omega)]

theorem C8_reachable_time_reroll_witness :
    (15000 ≤ rand_randomise_base 30000 37 ∧
     rand_randomise_base 30000 37 ≤ 45000 ∧
     30000 ≤ 2 * rand_randomise_base 30000 37 + 1 ∧
     2 * rand_randomise_base 30000 37 ≤ 90000) ∧
    (∃ u, rand_randomise_base 30000 u = 45000) ∧
    update_reachable_time ⟨30000, 600, 20000⟩ 599 0 = ⟨30000, 1, 20000⟩ ∧
    update_reachable_time ⟨30000, 600, 20000⟩ 600 77 =
      protocol_stack_interface_set_reachable_time ⟨30000, 600, 20000⟩ 30000 77 :=
  ⟨C8_reachable_time_reroll.1 30000 37,
   C8_reachable_time_reroll.2.1 30000 45000 (by decide) (by decide),
   C8_reachable_time_reroll.2.2.2.1 ⟨30000, 600, 20000⟩ 599 0 (by decide),
   C8_reachable_time_reroll.2.2.2.2 ⟨30000, 600, 20000⟩ 600 77 (by decide)⟩

/-! ## NA handler lemmas -/

/-- Helper: a key-preserving in-place update keeps every absent key
absent. -/
theorem find_none_map_of_ip_preserved {l : List NeighEntry} {a : List Nat}
    {f : NeighEntry → NeighEntry} (hf : ∀ e, (f e).ip = e.ip)
    (hnone : l.find? (fun e => e.ip == a) = none) :
    (l.map f).find? (fun e => e.ip == a) = none := by
  rw [List.find?_eq_none] at hnone ⊢
  intro x hx
  rcases List.mem_map.mp hx with ⟨y, hy, hxy⟩
  rw [← hxy, hf y]
  exact hnone y hy

/-- Master description of the cache effect of the NA handler: either
the cache is untouched, or it is an element-wise replacement that
preserves every entry key. -/
theorem icmpv6_na_handler_cache (env : Env) (st : StackState) (buf : Buffer) :
    (icmpv6_na_handler env st buf).neighCache = st.neighCache ∨
    ∃ f : NeighEntry → NeighEntry, (∀ e, (f e).ip = e.ip) ∧
      (icmpv6_na_handler env st buf).neighCache = st.neighCache.map f := by
  unfold icmpv6_na_handler
  dsimp only
  split_ifs with h1 h2 h3 h4 h5
  · exact Or.inl rfl
  · exact Or.inl rfl
  · exact Or.inl rfl
  · exact Or.inl rfl
  · exact Or.inl rfl
  · rcases hfind : st.neighCache.find? (fun e => e.ip == na_target buf.data) with _ | entry
    · rw [hfind]
      exact Or.inl rfl
    · rw [hfind]
      dsimp only
      refine Or.inr ⟨_, ?_, rfl⟩
      intro e
      by_cases he : (e.ip == na_target buf.data) = true
      · have h1 : entry.ip = na_target buf.data := by
          have hp := List.find?_some hfind
          simpa using hp
        have h2 : e.ip = na_target buf.data := eq_of_beq he
        simp only [he, if_true]
        rw [h1, h2]
      · simp [he]

/-- C10: an inbound NA whose target has no entry in the neighbour cache
leaves the cache unchanged, and NA processing never creates an entry:
any address absent from the cache before the NA is still absent after
it. -/
theorem C10_na_never_creates_entry (env : Env) (st : StackState) (buf : Buffer) :
    (st.neighCache.find? (fun e => e.ip == na_target buf.data) = none →
       (icmpv6_na_handler env st buf).neighCache = st.neighCache) ∧
    (∀ a : List Nat, st.neighCache.find? (fun e => e.ip == a) = none →
       (icmpv6_na_handler env st buf).neighCache.find? (fun e => e.ip == a) = none) := by
  constructor
  · intro hnone
    unfold icmpv6_na_handler
    dsimp only
    split_ifs with h1 h2 h3 h4 h5
    · rfl
    · rfl
    · rfl
    · rfl
    · rfl
    · rw [hnone]
  · intro a hnone
    rcases icmpv6_na_handler_cache env st buf with hsame | ⟨f, hf, hmap⟩
    · rw [hsame]; exact hnone
    · rw [hmap]
      exact find_none_map_of_ip_preserved hf hnone

/-- C7: an inbound NA whose IP destination is multicast and whose
Solicited flag is set is dropped with the whole stack state (neighbour
cache included) unchanged, for every environment. -/
theorem C7_na_multicast_solicited_drop (env : Env) (st : StackState) (buf : Buffer)
    (hm : addr_is_ipv6_multicast buf.dst_sa.addr = true)
    (hs : buf.data.headD 0 &&& NA_S ≠ 0) :
    icmpv6_na_handler env st buf = st := by
  have hbit : ((buf.data.headD 0 &&& NA_S) != 0) = true := by
    simpa [bne_iff_ne] using hs
  unfold icmpv6_na_handler
  dsimp only
  split_ifs with h1 h2 h3 h4 <;>
    first
      | rfl
      | exact absurd (by rw [hm, hbit]; rfl : _ = true) h4

def stW : StackState :=
  ⟨[⟨fe80_1, 1, 3, [1, 2, 3, 4, 5, 6, 7, 8]⟩], 5, []⟩

/-- NA to ff02::1 with the S flag set (the S5 scenario of the spec). -/
def naMcastS : Buffer :=
  { data := [0x40, 0, 0, 0] ++ fe80_1,
    src_sa := ⟨ADDR_IPV6, fe80_2⟩, dst_sa := ⟨ADDR_IPV6, ADDR_LINK_LOCAL_ALL_NODES⟩,
    options := ⟨ICMPV6_TYPE_INFO_NA, 0, 255, false, false, false⟩ }

theorem C7_na_multicast_solicited_drop_witness :
    icmpv6_na_handler envW stW naMcastS = stW :=
  C7_na_multicast_solicited_drop envW stW naMcastS (by decide) (by decide)

/-! ## C4: the unspecified-source (DAD) direction test of the NS handler

RFC 4861 section 7.1.1 and the comment at icmpv6.c lines 378-380 both
require an NS with unspecified source to be processed only when the
destination IS a solicited-node multicast address; the memcmp test at
line 379 drops exactly that case and lets every other destination
through. -/

/-- DAD NS (source ::) addressed, as RFC 4861 requires, to the
solicited-node multicast address of the target fe80::2. -/
def nsDadToSolicited : Buffer :=
  { data := [0, 0, 0, 0] ++ fe80_2,
    src_sa := ⟨ADDR_IPV6, addr_unspec⟩, dst_sa := ⟨ADDR_IPV6, solicited_2⟩,
    options := ⟨ICMPV6_TYPE_INFO_NS, 0, 255, false, false, false⟩ }

/-- DAD NS (source ::) addressed to a plain unicast destination, which
RFC 4861 requires to be silently discarded. -/
def nsDadToUnicast : Buffer :=
  { data := [0, 0, 0, 0] ++ fe80_2,
    src_sa := ⟨ADDR_IPV6, addr_unspec⟩, dst_sa := ⟨ADDR_IPV6, fe80_1⟩,
    options := ⟨ICMPV6_TYPE_INFO_NS, 0, 255, false, false, false⟩ }

def st0 : StackState := ⟨[], 0, []⟩

/-- C4: the code drops the RFC-required case and continues on the
RFC-forbidden one.  The NS handler, given a DAD NS whose destination is
the solicited-node multicast address of the target (and no SLLAO),
drops it without reply, while the same NS sent to a unicast destination
is processed and answered with an NA — the opposite of the claim, of
RFC 4861 section 7.1.1 and of the comments at icmpv6.c lines 378-382. -/
theorem C4_ns_dad_direction_inverted :
    (icmpv6_ns_handler envW st0 nsDadToSolicited).2 = none ∧
    ((icmpv6_ns_handler envW st0 nsDadToUnicast).2).isSome = true := by
  constructor
  · decide
  · decide

/-! ## Emission characterisation lemmas -/

/-- Every NA that icmpv6_build_na actually emits has hop limit 255, the
flag word NA_O-if-override or-ed with NA_S-if-solicited-and-not-DAD,
the destination of the C dispatch (all-nodes for DAD, the LL64 rebuilt
from the EARO EUI-64 for a failed registration, the given source
address otherwise), and a source that is the target when the target is
assigned to the interface and the address-selection result otherwise. -/
theorem icmpv6_build_na_emit_spec (env : Env) (sol ovr tr : Bool) (tgt : List Nat)
    (earo : Option EaroOut) (src : List Nat) (na : EmittedNA)
    (h : (icmpv6_build_na env sol ovr tr tgt earo src).1 = some na) :
    na.hop_limit = 255 ∧
    na.flags = ((if ovr then NA_O else 0) |||
                (if sol && !(addr_is_ipv6_unspecified src) then NA_S else 0)) ∧
    na.dst_addr = (if addr_is_ipv6_unspecified src then ADDR_LINK_LOCAL_ALL_NODES
                   else match earo with
                        | some e =>
                          if e.status != ARO_SUCCESS then ll_address_from_eui64 e.eui64
                          else src
                        | none => src) ∧
    (if env.addr_is_assigned tgt then na.src_addr = tgt
     else env.addr_select_source na.dst_addr = some na.src_addr) := by
  rcases earo with _ | e
  · unfold icmpv6_build_na at h
    dsimp only at h
    split at h
    · cases h
    · split at h
      · cases h
      · split at h
        · cases h
        · rcases hsel : (if env.addr_is_assigned tgt then some tgt
              else env.addr_select_source
                (if addr_is_ipv6_unspecified src then ADDR_LINK_LOCAL_ALL_NODES
                 else src)) with _ | src1
          · rw [hsel] at h
            cases h
          · rw [hsel] at h
            dsimp only at h
            have hna := Option.some.inj h
            subst hna
            refine ⟨rfl, rfl, rfl, ?_⟩
            by_cases ha : env.addr_is_assigned tgt = true
            · rw [if_pos ha]
              rw [if_pos ha] at hsel
              exact (Option.some.inj hsel).symm
            · rw [if_neg ha]
              rw [if_neg ha] at hsel
              exact hsel
  · unfold icmpv6_build_na at h
    dsimp only at h
    split at h
    · cases h
    · split at h
      · cases h
      · split at h
        · cases h
        · rcases hsel : (if env.addr_is_assigned tgt then some tgt
              else env.addr_select_source
                (if addr_is_ipv6_unspecified src then ADDR_LINK_LOCAL_ALL_NODES
                 else if e.status != ARO_SUCCESS then ll_address_from_eui64 e.eui64
                 else src)) with _ | src1
          · rw [hsel] at h
            cases h
          · rw [hsel] at h
            dsimp only at h
            split at h
            · split at h
              · have hna := Option.some.inj h
                subst hna
                refine ⟨rfl, rfl, rfl, ?_⟩
                by_cases ha : env.addr_is_assigned tgt = true
                · rw [if_pos ha]
                  rw [if_pos ha] at hsel
                  exact (Option.some.inj hsel).symm
                · rw [if_neg ha]
                  rw [if_neg ha] at hsel
                  exact hsel
              · cases h
            · have hna := Option.some.inj h
              subst hna
              refine ⟨rfl, rfl, rfl, ?_⟩
              by_cases ha : env.addr_is_assigned tgt = true
              · rw [if_pos ha]
                rw [if_pos ha] at hsel
                exact (Option.some.inj hsel).symm
              · rw [if_neg ha]
                rw [if_neg ha] at hsel
                exact hsel

/-- Every NA the NS handler emits comes from icmpv6_build_na called
with solicited = true, override = not-proxy (proxy when the target is
not one of our addresses), the NS target and the NS source address. -/
theorem icmpv6_ns_handler_emit (env : Env) (st : StackState) (buf : Buffer)
    (na : EmittedNA) (h : (icmpv6_ns_handler env st buf).2 = some na) :
    ∃ (tr : Bool) (ne : Option EaroOut),
      (icmpv6_build_na env true (!(!env.addr_compare_ok (ns_target buf.data)))
        tr (ns_target buf.data) ne buf.src_sa.addr).1 = some na := by
  unfold icmpv6_ns_handler at h
  dsimp only at h
  iterate 12 all_goals try split at h
  all_goals
    first
      | simp at h
      | (unfold ns_reply at h
         dsimp only at h
         exact ⟨_, _, h⟩)

/-- C3: every NS and NA the engine builds carries hop limit 255, and an
inbound NS or NA whose hop limit is not 255 is dropped with no reply
and the stack state (neighbour cache included) unchanged. -/
theorem C3_hop_limit_255 :
    (∀ (env : Env) (tgt : List Nat) (p : Option (List Nat)) (uni us : Bool)
       (aro : Option EaroOut) (ns : EmittedNS),
       icmpv6_build_ns env tgt p uni us aro = some ns → ns.hop_limit = 255) ∧
    (∀ (env : Env) (sol ovr tr : Bool) (tgt : List Nat) (earo : Option EaroOut)
       (src : List Nat) (na : EmittedNA),
       (icmpv6_build_na env sol ovr tr tgt earo src).1 = some na →
       na.hop_limit = 255) ∧
    (∀ (env : Env) (st : StackState) (buf : Buffer),
       buf.options.hop_limit ≠ 255 → icmpv6_ns_handler env st buf = (st, none)) ∧
    (∀ (env : Env) (st : StackState) (buf : Buffer),
       buf.options.hop_limit ≠ 255 → icmpv6_na_handler env st buf = st) := by
  refine ⟨?_, ?_, ?_, ?_⟩
  · intro env tgt p uni us aro ns h
    unfold icmpv6_build_ns at h
    dsimp only at h
    split at h
    · cases h
    · split at h
      · cases h
      · split at h
        · have h2 := Option.some.inj h
          rw [← h2]
        · split at h
          · cases h
          · have h2 := Option.some.inj h
            rw [← h2]
  · intro env sol ovr tr tgt earo src na h
    exact (icmpv6_build_na_emit_spec env sol ovr tr tgt earo src na h).1
  · intro env st buf hne
    have hb : (buf.options.hop_limit != 255) = true := by
      simpa [bne_iff_ne] using hne
    unfold icmpv6_ns_handler
    dsimp only
    simp [hb]
  · intro env st buf hne
    have hb : (buf.options.hop_limit != 255) = true := by
      simpa [bne_iff_ne] using hne
    unfold icmpv6_na_handler
    dsimp only
    simp [hb]

/-- The NS built by the concrete environment envW for target fe80::2,
unicast, from the interface link-local address. -/
def nsW255 : EmittedNS :=
  ⟨ICMPV6_TYPE_INFO_NS, 0, 255, fe80_1, fe80_2, [0, 0, 0, 0] ++ fe80_2⟩

/-- The NA built by envW: solicited, override, target fe80::2 (ours),
sent to fe80::1. -/
def naW255 : EmittedNA :=
  ⟨255, ICMPV6_TYPE_INFO_NA, 0, 0x60, fe80_2, fe80_2, fe80_1, none⟩

def nsBadHop : Buffer :=
  { data := [0, 0, 0, 0] ++ fe80_2,
    src_sa := ⟨ADDR_IPV6, fe80_1⟩, dst_sa := ⟨ADDR_IPV6, solicited_2⟩,
    options := ⟨ICMPV6_TYPE_INFO_NS, 0, 64, false, false, false⟩ }

def naBadHop : Buffer :=
  { data := [0x60, 0, 0, 0] ++ fe80_1,
    src_sa := ⟨ADDR_IPV6, fe80_2⟩, dst_sa := ⟨ADDR_IPV6, fe80_1⟩,
    options := ⟨ICMPV6_TYPE_INFO_NA, 0, 64, false, false, false⟩ }

theorem C3_hop_limit_255_witness :
    nsW255.hop_limit = 255 ∧ naW255.hop_limit = 255 ∧
    icmpv6_ns_handler envW st0 nsBadHop = (st0, none) ∧
    icmpv6_na_handler envW st0 naBadHop = st0 :=
  ⟨C3_hop_limit_255.1 envW fe80_2 none true false none nsW255 (by decide),
   C3_hop_limit_255.2.1 envW true true true fe80_2 none fe80_1 naW255 (by decide),
   C3_hop_limit_255.2.2.1 envW st0 nsBadHop (by decide),
   C3_hop_limit_255.2.2.2 envW st0 naBadHop (by decide)⟩

/-! ## C5: flags of the NA emitted in reply to an NS -/

/-- Solicited NS for our address fe80::2, sent from fe80::1 to the
solicited-node multicast group (the S1 scenario of the spec without
the EARO). -/
def nsS1 : Buffer :=
  { data := [0, 0, 0, 0] ++ fe80_2,
    src_sa := ⟨ADDR_IPV6, fe80_1⟩, dst_sa := ⟨ADDR_IPV6, solicited_2⟩,
    options := ⟨ICMPV6_TYPE_INFO_NS, 0, 255, false, false, false⟩ }

/-- C5 counterexample: the NA emitted in reply to a solicited NS for
our own address carries the flag word 0x60 (S and O set); its Router
bit NA_R is 0, refuting the claim that every NA reply has R = 1
(icmpv6_build_na never sets NA_R). -/
theorem C5_router_flag_counterexample :
    Option.map EmittedNA.flags (icmpv6_ns_handler envW st0 nsS1).2 = some 0x60 ∧
    0x60 &&& NA_R = 0 := by
  constructor
  · decide
  · decide

/-- C5 (amended): every NA emitted in reply to an inbound NS carries
R = 0 (the code never sets the Router flag), S = 1 exactly unless the
reply is to DAD (NS source unspecified), and O = 1 exactly unless the
NA is a proxy NA (the target is not one of our addresses). -/
theorem C5_na_flags_amended (env : Env) (st : StackState) (buf : Buffer)
    (na : EmittedNA) (h : (icmpv6_ns_handler env st buf).2 = some na) :
    na.flags &&& NA_R = 0 ∧
    ((na.flags &&& NA_S ≠ 0) ↔ addr_is_ipv6_unspecified buf.src_sa.addr = false) ∧
    ((na.flags &&& NA_O ≠ 0) ↔ env.addr_compare_ok (ns_target buf.data) = true) := by
  obtain ⟨tr, ne, hb⟩ := icmpv6_ns_handler_emit env st buf na h
  obtain ⟨_, hflags, _, _⟩ :=
    icmpv6_build_na_emit_spec env true (!(!env.addr_compare_ok (ns_target buf.data)))
      tr (ns_target buf.data) ne buf.src_sa.addr na hb
  rw [hflags]
  cases hcmp : env.addr_compare_ok (ns_target buf.data) <;>
    cases hun : addr_is_ipv6_unspecified buf.src_sa.addr <;>
      simp [hcmp, hun] <;> decide

/-- The NA emitted by envW in reply to nsS1: solicited and override,
so flags = 0x60, sourced from the target (assigned), sent back to the
NS source. -/
def naS1 : EmittedNA :=
  ⟨255, ICMPV6_TYPE_INFO_NA, 0, 0x60, fe80_2, fe80_2, fe80_1, none⟩

theorem C5_na_flags_amended_witness :
    naS1.flags &&& NA_R = 0 ∧
    ((naS1.flags &&& NA_S ≠ 0) ↔ addr_is_ipv6_unspecified nsS1.src_sa.addr = false) ∧
    ((naS1.flags &&& NA_O ≠ 0) ↔ envW.addr_compare_ok (ns_target nsS1.data) = true) :=
  C5_na_flags_amended envW st0 nsS1 naS1 (by decide)

/-! ## C6: source and destination of an emitted NA -/

/-- EARO answered with status DUPLICATE (1), a failed registration. -/
def earoFail : EaroOut :=
  ⟨1, 0, false, false, false, 0, 3600, [0x02, 0x11, 0x22, 0x33, 0x44, 0x55, 0x66, 0x77]⟩

/-- C6 counterexample: an NA built in reply to a DAD NS (source
unspecified) carrying a failed EARO is sent to ff02::1 (all-nodes),
which is neither the link-local address rebuilt from the EARO EUI-64
(as the claim requires for status different from SUCCESS) nor the NS
source address: the DAD branch of icmpv6_build_na takes priority over
both destinations of the claim. -/
theorem C6_na_dst_counterexample :
    Option.map EmittedNA.dst_addr
      (icmpv6_build_na envW true true false fe80_2 (some earoFail) addr_unspec).1 =
      some ADDR_LINK_LOCAL_ALL_NODES ∧
    ADDR_LINK_LOCAL_ALL_NODES ≠ ll_address_from_eui64 earoFail.eui64 ∧
    ADDR_LINK_LOCAL_ALL_NODES ≠ addr_unspec := by
  refine ⟨?_, ?_, ?_⟩
  · decide
  · decide
  · decide

/-- C6 (amended): for every emitted NA the source address is the target
when the target is assigned to the interface and the rule-based
source-selection result for the NA destination otherwise; the
destination is the link-local all-nodes address ff02::1 when the NS
source was unspecified (DAD reply), else the link-local address
rebuilt from the EARO EUI-64 (fe80:: prefix, IID with bit 1 of octet 0
inverted) when an EARO with status different from SUCCESS is attached,
and the NS source address otherwise. -/
theorem C6_na_addresses_amended (env : Env) (sol ovr tr : Bool) (tgt : List Nat)
    (earo : Option EaroOut) (src : List Nat) (na : EmittedNA)
    (h : (icmpv6_build_na env sol ovr tr tgt earo src).1 = some na) :
    (env.addr_is_assigned tgt = true → na.src_addr = tgt) ∧
    (env.addr_is_assigned tgt = false →
       env.addr_select_source na.dst_addr = some na.src_addr) ∧
    (addr_is_ipv6_unspecified src = true →
       na.dst_addr = ADDR_LINK_LOCAL_ALL_NODES) ∧
    (addr_is_ipv6_unspecified src = false →
       ∀ e, earo = some e → e.status ≠ ARO_SUCCESS →
         na.dst_addr = ll_address_from_eui64 e.eui64) ∧
    (addr_is_ipv6_unspecified src = false →
       (earo = none ∨ ∃ e, earo = some e ∧ e.status = ARO_SUCCESS) →
       na.dst_addr = src) := by
  obtain ⟨_, _, hdst, hsrc⟩ :=
    icmpv6_build_na_emit_spec env sol ovr tr tgt earo src na h
  refine ⟨?_, ?_, ?_, ?_, ?_⟩
  · intro ha
    rw [if_pos ha] at hsrc
    exact hsrc
  · intro ha
    rw [if_neg (by simp [ha])] at hsrc
    exact hsrc
  · intro hu
    rw [hdst, if_pos hu]
  · intro hu e he hst
    subst he
    have hbne : (e.status != ARO_SUCCESS) = true := by
      simpa [bne_iff_ne] using hst
    rw [hdst, if_neg (by simp [hu])]
    dsimp only
    rw [if_pos hbne]
  · intro hu hearo
    rcases hearo with hnone | ⟨e, he, hst⟩
    · subst hnone
      rw [hdst, if_neg (by simp [hu])]
    · subst he
      rw [hdst, if_neg (by simp [hu])]
      dsimp only
      rw [if_neg (by simp [bne_iff_ne, hst])]

theorem C6_na_addresses_amended_witness :
    (envW.addr_is_assigned fe80_2 = true → naW255.src_addr = fe80_2) ∧
    (envW.addr_is_assigned fe80_2 = false →
       envW.addr_select_source naW255.dst_addr = some naW255.src_addr) ∧
    (addr_is_ipv6_unspecified fe80_1 = true →
       naW255.dst_addr = ADDR_LINK_LOCAL_ALL_NODES) ∧
    (addr_is_ipv6_unspecified fe80_1 = false →
       ∀ e, (none : Option EaroOut) = some e → e.status ≠ ARO_SUCCESS →
         naW255.dst_addr = ll_address_from_eui64 e.eui64) ∧
    (addr_is_ipv6_unspecified fe80_1 = false →
       ((none : Option EaroOut) = none ∨
        ∃ e, (none : Option EaroOut) = some e ∧ e.status = ARO_SUCCESS) →
       naW255.dst_addr = fe80_1) :=
  C6_na_addresses_amended envW true true true fe80_2 none fe80_1 naW255 (by decide)

/-- Valid NA whose target fe80::2 has no entry in the cache stW (which
holds only fe80::1). -/
def naNoEntry : Buffer :=
  { data := [0x60, 0, 0, 0] ++ fe80_2,
    src_sa := ⟨ADDR_IPV6, fe80_1⟩, dst_sa := ⟨ADDR_IPV6, fe80_1⟩,
    options := ⟨ICMPV6_TYPE_INFO_NA, 0, 255, false, false, false⟩ }

theorem C10_na_never_creates_entry_witness :
    (icmpv6_na_handler envW stW naNoEntry).neighCache = stW.neighCache ∧
    (icmpv6_na_handler envW stW naNoEntry).neighCache.find?
      (fun e => e.ip == fe80_2) = none :=
  ⟨(C10_na_never_creates_entry envW stW naNoEntry).1 (by decide),
   (C10_na_never_creates_entry envW stW naNoEntry).2 fe80_2 (by decide)⟩
